import Mathlib

/-!
Shallow embedding of `src/AudioKit/Core/AudioKitCore/Common/ResonantLowPassFilter.cpp`.

The C++ code computes with IEEE `double`/`float` values.  We idealize a
floating-point number as `FP`: either an exact rational, `+inf`, `-inf`, or
`nan` (rounding, overflow-to-infinity and signed zero are not modelled; the
NaN/infinity propagation rules of IEEE arithmetic are, because the `isnan` guard in the code branches on them).  The transcendental library calls
`pow`, `sin`, `cos` are abstracted as an explicit `MathOps` argument: every
theorem below quantifies over all such function tables, so nothing depends on
the numeric behaviour of the C math library.
-/

namespace AudioKitCore

/-- Idealized floating-point value: an exact rational, an infinity, or NaN. -/
inductive FP where
  | fin (x : ℚ)
  | pinf
  | ninf
  | nan
deriving DecidableEq, Repr

namespace FP

/-- C `isnan`. -/
def isnan : FP → Bool
  | nan => true
  | _ => false

/-- IEEE negation. -/
def fneg : FP → FP
  | fin x => fin (-x)
  | pinf => ninf
  | ninf => pinf
  | nan => nan

/-- IEEE addition (NaN absorbing, opposite infinities give NaN). -/
def fadd : FP → FP → FP
  | nan, _ => nan
  | _, nan => nan
  | fin a, fin b => fin (a + b)
  | pinf, ninf => nan
  | ninf, pinf => nan
  | pinf, _ => pinf
  | _, pinf => pinf
  | ninf, _ => ninf
  | _, ninf => ninf

/-- IEEE subtraction, `a - b = a + (-b)`. -/
def fsub (a b : FP) : FP := fadd a (fneg b)

/-- IEEE multiplication (NaN absorbing, `0 * inf = nan`, sign rules for
infinities). -/
def fmul : FP → FP → FP
  | nan, _ => nan
  | _, nan => nan
  | fin a, fin b => fin (a * b)
  | fin a, pinf => if a = 0 then nan else if 0 < a then pinf else ninf
  | fin a, ninf => if a = 0 then nan else if 0 < a then ninf else pinf
  | pinf, fin b => if b = 0 then nan else if 0 < b then pinf else ninf
  | ninf, fin b => if b = 0 then nan else if 0 < b then ninf else pinf
  | pinf, pinf => pinf
  | pinf, ninf => ninf
  | ninf, pinf => ninf
  | ninf, ninf => pinf

/-- IEEE division (no signed zero: `x / 0` for `x > 0` is `+inf`,
`inf / inf = nan`, finite over infinite is `0`). -/
def fdiv : FP → FP → FP
  | nan, _ => nan
  | _, nan => nan
  | fin a, fin b =>
      if b = 0 then (if a = 0 then nan else if 0 < a then pinf else ninf)
      else fin (a / b)
  | fin _, pinf => fin 0
  | fin _, ninf => fin 0
  | pinf, fin b => if b < 0 then ninf else pinf
  | ninf, fin b => if b < 0 then pinf else ninf
  | pinf, pinf => nan
  | pinf, ninf => nan
  | ninf, pinf => nan
  | ninf, ninf => nan

/-- C `==` on doubles: NaN compares unequal to everything, itself included. -/
def feq : FP → FP → Bool
  | fin a, fin b => decide (a = b)
  | pinf, pinf => true
  | ninf, ninf => true
  | _, _ => false

/-- C `<` on doubles: any comparison involving NaN is false. -/
def flt : FP → FP → Bool
  | fin a, fin b => decide (a < b)
  | fin _, pinf => true
  | ninf, fin _ => true
  | ninf, pinf => true
  | _, _ => false

instance : Neg FP := ⟨fneg⟩
instance : Add FP := ⟨fadd⟩
instance : Sub FP := ⟨fsub⟩
instance : Mul FP := ⟨fmul⟩
instance : Div FP := ⟨fdiv⟩

theorem neg_def (a : FP) : -a = fneg a := rfl
theorem add_def (a b : FP) : a + b = fadd a b := rfl
theorem sub_def (a b : FP) : a - b = fsub a b := rfl
theorem mul_def (a b : FP) : a * b = fmul a b := rfl
theorem div_def (a b : FP) : a / b = fdiv a b := rfl

end FP

/-- Abstracted C math library: `pow`, `sin`, `cos` as used by `setParams`.
No claim depends on their numeric values, so theorems quantify over all
tables. -/
structure MathOps where
  pow : FP → FP → FP
  sin : FP → FP
  cos : FP → FP

/-- The exact value of the `M_PI` double constant, `7074237752028440 * 2^-51`. -/
def M_PI : FP := FP.fin (884279719003555 / 281474976710656)

/-- Source: `static const float kMinCutoffHz = 12.0;` -/
def kMinCutoffHz : FP := FP.fin 12

/-- Source: `static const float kMinResonance = -20.0;` -/
def kMinResonance : FP := FP.fin (-20)

/-- Source: `static const float kMaxResonance = 20.0;` -/
def kMaxResonance : FP := FP.fin 20

/-- State of a `ResonantLowPassFilter` instance: sample rate, memoized last
parameters, history taps `mX1 mX2 mY1 mY2`, coefficients `mA0 mA1 mA2 mB1 mB2`. -/
@[ext]
structure ResonantLowPassFilter where
  sampleRateHz : FP
  mLastCutoffHz : FP
  mLastResonanceDb : FP
  mX1 : FP
  mX2 : FP
  mY1 : FP
  mY2 : FP
  mA0 : FP
  mA1 : FP
  mA2 : FP
  mB1 : FP
  mB2 : FP
deriving DecidableEq, Repr

/-- Source: `ResonantLowPassFilter::init`.  The source line
`mX1 = mX2 = mY1 = mY1 = 0.0;` assigns `mY1` twice and never assigns `mY2`,
so `mY2` is left unchanged here, exactly as in the code. -/
def init (sampleRateHz : FP) (f : ResonantLowPassFilter) : ResonantLowPassFilter :=
  { f with
    sampleRateHz := sampleRateHz
    mX1 := FP.fin 0
    mX2 := FP.fin 0
    mY1 := FP.fin 0
    mLastCutoffHz := FP.fin (-1)
    mLastResonanceDb := FP.fin (-1) }

/-- Source: `if (newCutoffHz < kMinCutoffHz) newCutoffHz = kMinCutoffHz;` -/
def clampCutoff (newCutoffHz : FP) : FP :=
  if FP.flt newCutoffHz kMinCutoffHz then kMinCutoffHz else newCutoffHz

/-- Source: the two resonance clamp lines,
`if (newResonanceDb < kMinResonance) ...; if (newResonanceDb > kMaxResonance) ...;`
(`a > b` in C is `b < a`). -/
def clampRes (newResonanceDb : FP) : FP :=
  let newResonanceDb := if FP.flt newResonanceDb kMinResonance then kMinResonance else newResonanceDb
  if FP.flt kMaxResonance newResonanceDb then kMaxResonance else newResonanceDb

/-- The non-fast-path body of `ResonantLowPassFilter::setParams`: clamp the
arguments, memoize them, and recompute the five coefficients. -/
def setParamsRecompute (ops : MathOps) (newCutoffHz newResonanceDb : FP)
    (f : ResonantLowPassFilter) : ResonantLowPassFilter :=
  let newCutoffHz := clampCutoff newCutoffHz
  let newResonanceDb := clampRes newResonanceDb
  let cutoff := FP.fin 2 * newCutoffHz / f.sampleRateHz
  let cutoff := if FP.flt (FP.fin 0.99) cutoff then FP.fin 0.99 else cutoff
  let r := ops.pow (FP.fin 10) (FP.fin 0.05 * -newResonanceDb)
  let k := FP.fin 0.5 * r * ops.sin (M_PI * cutoff)
  let c1 := FP.fin 0.5 * (FP.fin 1 - k) / (FP.fin 1 + k)
  let c2 := (FP.fin 0.5 + c1) * ops.cos (M_PI * cutoff)
  let c3 := (FP.fin 0.5 + c1 - c2) * FP.fin 0.25
  { f with
    mLastCutoffHz := newCutoffHz
    mLastResonanceDb := newResonanceDb
    mA0 := FP.fin 2 * c3
    mA1 := FP.fin 2 * FP.fin 2 * c3
    mA2 := FP.fin 2 * c3
    mB1 := FP.fin 2 * -c2
    mB2 := FP.fin 2 * c1 }

/-- Source: `ResonantLowPassFilter::setParams`: fast path when both arguments compare
`==` to the memoized values, else recompute. -/
def setParams (ops : MathOps) (newCutoffHz newResonanceDb : FP)
    (f : ResonantLowPassFilter) : ResonantLowPassFilter :=
  if FP.feq newCutoffHz f.mLastCutoffHz && FP.feq newResonanceDb f.mLastResonanceDb then f
  else setParamsRecompute ops newCutoffHz newResonanceDb f

/-- Single-sample `ResonantLowPassFilter::process(float)`: returns the updated
state and the output sample. -/
def process (inputSample : FP) (f : ResonantLowPassFilter) :
    ResonantLowPassFilter × FP :=
  let outputSample :=
    f.mA0 * inputSample + f.mA1 * f.mX1 + f.mA2 * f.mX2 - f.mB1 * f.mY1 - f.mB2 * f.mY2
  let outputSample := if outputSample.isnan then FP.fin 0 else outputSample
  ({ f with mX2 := f.mX1, mX1 := inputSample, mY2 := f.mY1, mY1 := outputSample },
   outputSample)

/-- Block `ResonantLowPassFilter::process(const float*, float*, int)`: the
source buffer is the input list, the returned list is the destination buffer.
The loop body is transcribed directly from the source (it repeats the
single-sample computation inline). -/
def processBlock (f : ResonantLowPassFilter) :
    List FP → ResonantLowPassFilter × List FP
  | [] => (f, [])
  | input :: rest =>
      let output :=
        f.mA0 * input + f.mA1 * f.mX1 + f.mA2 * f.mX2 - f.mB1 * f.mY1 - f.mB2 * f.mY2
      let output := if output.isnan then FP.fin 0 else output
      let f1 := { f with mX2 := f.mX1, mX1 := input, mY2 := f.mY1, mY1 := output }
      let res := processBlock f1 rest
      (res.1, output :: res.2)

/-- Iterating the single-sample `process` over a list, one call per sample. -/
def processSeq (f : ResonantLowPassFilter) :
    List FP → ResonantLowPassFilter × List FP
  | [] => (f, [])
  | input :: rest =>
      let step := process input f
      let res := processSeq step.1 rest
      (res.1, step.2 :: res.2)

/-! Section: Concrete instances used by counterexamples and witnesses -/

/-- A concrete math-function table (all zero); claims never depend on the
numeric behaviour of `pow`/`sin`/`cos`. -/
def ops0 : MathOps := ⟨fun _ _ => FP.fin 0, fun _ => FP.fin 0, fun _ => FP.fin 0⟩

/-- A concrete filter state with one sample of output history (`mY2 = 1`) and
feedback coefficient `mB2 = 2`; everything else zero except the sample rate. -/
def stOneY2 : ResonantLowPassFilter :=
  { sampleRateHz := FP.fin 44100
    mLastCutoffHz := FP.fin 1000
    mLastResonanceDb := FP.fin 0
    mX1 := FP.fin 0, mX2 := FP.fin 0, mY1 := FP.fin 0, mY2 := FP.fin 1
    mA0 := FP.fin 0, mA1 := FP.fin 0, mA2 := FP.fin 0
    mB1 := FP.fin 0, mB2 := FP.fin 2 }

/-- The all-zero filter state. -/
def stZero : ResonantLowPassFilter :=
  { sampleRateHz := FP.fin 0
    mLastCutoffHz := FP.fin 0
    mLastResonanceDb := FP.fin 0
    mX1 := FP.fin 0, mX2 := FP.fin 0, mY1 := FP.fin 0, mY2 := FP.fin 0
    mA0 := FP.fin 0, mA1 := FP.fin 0, mA2 := FP.fin 0
    mB1 := FP.fin 0, mB2 := FP.fin 0 }

/-- A freshly initialized filter at 44100 Hz (memoized parameters hold the
`-1.0` sentinel). -/
def stInit : ResonantLowPassFilter := init (FP.fin 44100) stZero

/-- A freshly initialized filter whose (otherwise uninitialized) coefficient
`mA0` happens to hold `42`. -/
def stA42 : ResonantLowPassFilter := init (FP.fin 44100) { stZero with mA0 := FP.fin 42 }

/-- A filter state with `mA0 = 1` and all other coefficients and taps zero:
feeding it `+inf` drives the recurrence to `+inf`, which is not NaN. -/
def stA0One : ResonantLowPassFilter := { stZero with mA0 := FP.fin 1 }

/-- A filter state whose memoized parameters read `(12.0, 0.0)` while the
coefficient `mA0` holds an inconsistent leftover value `42`. -/
def stBad : ResonantLowPassFilter :=
  { stZero with sampleRateHz := FP.fin 44100
                mLastCutoffHz := FP.fin 12
                mLastResonanceDb := FP.fin 0
                mA0 := FP.fin 42 }

/-! Section: Spec-side coefficient formulas (for C6)

These definitions transcribe the formula pipeline exactly as the spec words
it (cutoff normalization and `0.99` ceiling, decibel conversion with the
negated exponent, and the intermediate values `k`, `c1`, `c2`, `c3`), to be
compared against `setParamsRecompute`. -/

/-- Spec: `cutoff = 2 * clampedCutoffHz / sampleRateHz`, then ceiling `0.99`. -/
def specCutoff (c sr : FP) : FP :=
  let x := FP.fin 2 * clampCutoff c / sr
  if FP.flt (FP.fin 0.99) x then FP.fin 0.99 else x

/-- Spec: `r = 10 ^ (0.05 * -resonanceDb)` (resonance negated before the power). -/
def specR (ops : MathOps) (q : FP) : FP :=
  ops.pow (FP.fin 10) (FP.fin 0.05 * -(clampRes q))

/-- Spec: `k = 0.5 * r * sin(pi * cutoff)`. -/
def specK (ops : MathOps) (c q sr : FP) : FP :=
  FP.fin 0.5 * specR ops q * ops.sin (M_PI * specCutoff c sr)

/-- Spec: `c1 = 0.5 * (1 - k) / (1 + k)`. -/
def specC1 (ops : MathOps) (c q sr : FP) : FP :=
  FP.fin 0.5 * (FP.fin 1 - specK ops c q sr) / (FP.fin 1 + specK ops c q sr)

/-- Spec: `c2 = (0.5 + c1) * cos(pi * cutoff)`. -/
def specC2 (ops : MathOps) (c q sr : FP) : FP :=
  (FP.fin 0.5 + specC1 ops c q sr) * ops.cos (M_PI * specCutoff c sr)

/-- Spec: `c3 = (0.5 + c1 - c2) * 0.25`. -/
def specC3 (ops : MathOps) (c q sr : FP) : FP :=
  (FP.fin 0.5 + specC1 ops c q sr - specC2 ops c q sr) * FP.fin 0.25

/-- Consistency invariant: the memoized parameters and coefficients and the coefficients of a filter agree with its own
recompute branch: re-running it at the memoized values reproduces the state.
Every state produced by the recompute branch satisfies this. -/
def paramsConsistent (ops : MathOps) (f : ResonantLowPassFilter) : Prop :=
  setParamsRecompute ops f.mLastCutoffHz f.mLastResonanceDb f = f

/-! Section: Helper lemmas -/

theorem feq_eq_true_of_eq_fin {a : FP} {x : ℚ} (h : a = FP.fin x) :
    FP.feq (FP.fin x) a = true := by
  subst h; simp [FP.feq]

theorem eq_of_feq_eq_true {a b : FP} (h : FP.feq a b = true) : a = b := by
  cases a <;> cases b <;> simp_all [FP.feq]

theorem fin_two_mul_fin_two_mul (x : FP) : FP.fin 2 * FP.fin 2 * x = FP.fin 4 * x := by
  cases x <;> norm_num [FP.mul_def, FP.fmul]

theorem fin_two_mul_neg (x : FP) : FP.fin 2 * -x = FP.fin (-2) * x := by
  cases x <;> norm_num [FP.mul_def, FP.neg_def, FP.fmul, FP.fneg, mul_neg, neg_mul]

theorem flt_minCutoff_minCutoff : FP.flt kMinCutoffHz kMinCutoffHz = false := rfl

theorem flt_minRes_minRes : FP.flt kMinResonance kMinResonance = false := rfl

theorem flt_maxRes_minRes : FP.flt kMaxResonance kMinResonance = false := rfl

theorem flt_maxRes_maxRes : FP.flt kMaxResonance kMaxResonance = false := rfl

theorem clampCutoff_idem (c : FP) : clampCutoff (clampCutoff c) = clampCutoff c := by
  by_cases h : FP.flt c kMinCutoffHz = true <;>
    simp [clampCutoff, h, flt_minCutoff_minCutoff]

theorem clampRes_idem (q : FP) : clampRes (clampRes q) = clampRes q := by
  by_cases h1 : FP.flt q kMinResonance = true
  · have hA : clampRes q = kMinResonance := by
      simp [clampRes, h1, flt_maxRes_minRes]
    rw [hA]
    simp [clampRes, flt_minRes_minRes, flt_maxRes_minRes]
  · by_cases h2 : FP.flt kMaxResonance q = true
    · have hA : clampRes q = kMaxResonance := by simp [clampRes, h1, h2]
      rw [hA]
      simp [clampRes, flt_maxRes_minRes, flt_maxRes_maxRes]
    · have hA : clampRes q = q := by simp [clampRes, h1, h2]
      rw [hA, hA]

theorem setParamsRecompute_idem (ops : MathOps) (c q : FP)
    (f : ResonantLowPassFilter) :
    setParamsRecompute ops c q (setParamsRecompute ops c q f)
      = setParamsRecompute ops c q f := rfl

theorem setParamsRecompute_congr (ops : MathOps) {a b u v : FP}
    (f : ResonantLowPassFilter)
    (hc : clampCutoff a = clampCutoff b) (hq : clampRes u = clampRes v) :
    setParamsRecompute ops a u f = setParamsRecompute ops b v f := by
  simp [setParamsRecompute, hc, hq]

theorem setParamsRecompute_paramsConsistent (ops : MathOps) (c q : FP)
    (f : ResonantLowPassFilter) :
    paramsConsistent ops (setParamsRecompute ops c q f) := by
  unfold paramsConsistent
  have h1 : (setParamsRecompute ops c q f).mLastCutoffHz = clampCutoff c := rfl
  have h2 : (setParamsRecompute ops c q f).mLastResonanceDb = clampRes q := rfl
  rw [h1, h2, setParamsRecompute_congr ops _ (clampCutoff_idem c) (clampRes_idem q),
    setParamsRecompute_idem]

theorem setParams_congr_of_clamp (ops : MathOps) (f : ResonantLowPassFilter)
    (h : paramsConsistent ops f) {a b u v : FP}
    (hc : clampCutoff a = clampCutoff b) (hq : clampRes u = clampRes v) :
    setParams ops a u f = setParams ops b v f := by
  by_cases hA : (FP.feq a f.mLastCutoffHz && FP.feq u f.mLastResonanceDb) = true
  · obtain ⟨hA1, hA2⟩ := Bool.and_eq_true_iff.mp hA
    have ea : f.mLastCutoffHz = a := (eq_of_feq_eq_true hA1).symm
    have eu : f.mLastResonanceDb = u := (eq_of_feq_eq_true hA2).symm
    have hfix : setParamsRecompute ops a u f = f := by
      have := h; unfold paramsConsistent at this; rwa [ea, eu] at this
    have eL : setParams ops a u f = f := by simp [setParams, hA]
    by_cases hB : (FP.feq b f.mLastCutoffHz && FP.feq v f.mLastResonanceDb) = true
    · simp [setParams, hA, hB]
    · have eR : setParams ops b v f = setParamsRecompute ops b v f := by
        simp [setParams, hB]
      rw [eL, eR, setParamsRecompute_congr ops f hc.symm hq.symm, hfix]
  · have eL : setParams ops a u f = setParamsRecompute ops a u f := by
      simp [setParams, hA]
    by_cases hB : (FP.feq b f.mLastCutoffHz && FP.feq v f.mLastResonanceDb) = true
    · obtain ⟨hB1, hB2⟩ := Bool.and_eq_true_iff.mp hB
      have eb : f.mLastCutoffHz = b := (eq_of_feq_eq_true hB1).symm
      have ev : f.mLastResonanceDb = v := (eq_of_feq_eq_true hB2).symm
      have hfix : setParamsRecompute ops b v f = f := by
        have := h; unfold paramsConsistent at this; rwa [eb, ev] at this
      have eR : setParams ops b v f = f := by simp [setParams, hB]
      rw [eL, eR, setParamsRecompute_congr ops f hc hq, hfix]
    · have eR : setParams ops b v f = setParamsRecompute ops b v f := by
        simp [setParams, hB]
      rw [eL, eR, setParamsRecompute_congr ops f hc hq]

theorem processBlock_preserves_params (xs : List FP) (f : ResonantLowPassFilter) :
    (processBlock f xs).1.sampleRateHz = f.sampleRateHz ∧
    (processBlock f xs).1.mLastCutoffHz = f.mLastCutoffHz ∧
    (processBlock f xs).1.mLastResonanceDb = f.mLastResonanceDb ∧
    (processBlock f xs).1.mA0 = f.mA0 ∧
    (processBlock f xs).1.mA1 = f.mA1 ∧
    (processBlock f xs).1.mA2 = f.mA2 ∧
    (processBlock f xs).1.mB1 = f.mB1 ∧
    (processBlock f xs).1.mB2 = f.mB2 := by
  induction xs generalizing f with
  | nil => simp [processBlock]
  | cons x rest ih => simpa [processBlock] using ih _

theorem processBlock_eq_processSeq (xs : List FP) (f : ResonantLowPassFilter) :
    processBlock f xs = processSeq f xs := by
  induction xs generalizing f with
  | nil => rfl
  | cons x rest ih => simp [processBlock, processSeq, process, ih]

theorem processBlock_append (xs ys : List FP) (f : ResonantLowPassFilter) :
    processBlock f (xs ++ ys) =
      ((processBlock (processBlock f xs).1 ys).1,
       (processBlock f xs).2 ++ (processBlock (processBlock f xs).1 ys).2) := by
  induction xs generalizing f with
  | nil => simp [processBlock]
  | cons x rest ih => simp [processBlock, ih]

/-! Section: Claims -/

/-- C1: the claim says `init(s)` sets all four history taps `x1 x2 y1 y2` to
zero so the first `process` call behaves as if no prior samples were seen.
The assignment chain in the code, `mX1 = mX2 = mY1 = mY1 = 0.0` assigns `mY1` twice
and never `mY2`, so `mY2` survives `init`: on `stOneY2` (where `mY2 = 1`,
`mB2 = 2`) the tap is still `1` after `init`, and the first `process 0` call
returns `-2`, whereas with `mY2` actually cleared it would return `0`. -/
theorem C1_init_leaves_mY2_unreset :
    (init (FP.fin 44100) stOneY2).mY2 = FP.fin 1 ∧
    (process (FP.fin 0) (init (FP.fin 44100) stOneY2)).2 = FP.fin (-2) ∧
    (process (FP.fin 0) { init (FP.fin 44100) stOneY2 with mY2 := FP.fin 0 }).2
      = FP.fin 0 := by
  norm_num [stOneY2, init, process, FP.add_def, FP.sub_def, FP.mul_def, FP.neg_def,
    FP.fadd, FP.fsub, FP.fmul, FP.fneg, FP.isnan]

/-- C4: `process input` returns
`a0*input + a1*x1 + a2*x2 - b1*y1 - b2*y2` with a NaN result replaced by `0.0`,
and shifts the history exactly as `x2 ← x1; x1 ← input; y2 ← y1; y1 ← output`. -/
theorem C4_process_formula_and_shift (f : ResonantLowPassFilter) (input : FP) :
    ((process input f).2 =
      (if (f.mA0 * input + f.mA1 * f.mX1 + f.mA2 * f.mX2
            - f.mB1 * f.mY1 - f.mB2 * f.mY2).isnan then FP.fin 0
       else f.mA0 * input + f.mA1 * f.mX1 + f.mA2 * f.mX2
            - f.mB1 * f.mY1 - f.mB2 * f.mY2)) ∧
    (process input f).1.mX2 = f.mX1 ∧
    (process input f).1.mX1 = input ∧
    (process input f).1.mY2 = f.mY1 ∧
    (process input f).1.mY1 = (process input f).2 := by
  refine ⟨rfl, rfl, rfl, rfl, rfl⟩

/-- C7: processing a list via the block form equals processing it one sample
at a time with the single-sample form, and a block call split in two (no
`init`/`setParams` in between) gives the same outputs as one combined call. -/
theorem C7_block_sample_equivalence (f : ResonantLowPassFilter) (xs ys : List FP) :
    processBlock f xs = processSeq f xs ∧
    processBlock f (xs ++ ys) =
      ((processBlock (processBlock f xs).1 ys).1,
       (processBlock f xs).2 ++ (processBlock (processBlock f xs).1 ys).2) :=
  ⟨processBlock_eq_processSeq xs f, processBlock_append xs ys f⟩

/-- C10: every `process` call, single-sample or block, leaves the sample rate,
memoized parameters and the five coefficients unchanged, and a block call on
an empty buffer (frame count 0) changes nothing and writes nothing. -/
theorem C10_process_touches_only_history (f : ResonantLowPassFilter) (input : FP)
    (xs : List FP) :
    ((process input f).1.sampleRateHz = f.sampleRateHz ∧
     (process input f).1.mLastCutoffHz = f.mLastCutoffHz ∧
     (process input f).1.mLastResonanceDb = f.mLastResonanceDb ∧
     (process input f).1.mA0 = f.mA0 ∧
     (process input f).1.mA1 = f.mA1 ∧
     (process input f).1.mA2 = f.mA2 ∧
     (process input f).1.mB1 = f.mB1 ∧
     (process input f).1.mB2 = f.mB2) ∧
    ((processBlock f xs).1.sampleRateHz = f.sampleRateHz ∧
     (processBlock f xs).1.mLastCutoffHz = f.mLastCutoffHz ∧
     (processBlock f xs).1.mLastResonanceDb = f.mLastResonanceDb ∧
     (processBlock f xs).1.mA0 = f.mA0 ∧
     (processBlock f xs).1.mA1 = f.mA1 ∧
     (processBlock f xs).1.mA2 = f.mA2 ∧
     (processBlock f xs).1.mB1 = f.mB1 ∧
     (processBlock f xs).1.mB2 = f.mB2) ∧
    processBlock f [] = (f, []) :=
  ⟨⟨rfl, rfl, rfl, rfl, rfl, rfl, rfl, rfl⟩, processBlock_preserves_params xs f, rfl⟩

/-- C2 counterexample: the claim says the memoized `mLastCutoffHz` is the raw
argument `5.0`; the code stores it only after the clamp, so the memoized
value is `12.0`, not `5.0`. -/
theorem C2_cex_memoized_value_is_clamped :
    (setParams ops0 (FP.fin 5) (FP.fin 0) stInit).mLastCutoffHz = FP.fin 12 ∧
    (FP.fin 12 : FP) ≠ FP.fin 5 := by
  exact ⟨rfl, by decide⟩

/-- C2 amended: every `setParams` call that does not take the fast path
memoizes the post-clamp values `clampCutoff c` and `clampRes q` (not the raw
caller arguments), so the fast-path comparison of the next call is against the
clamped values. -/
theorem C2_memoizes_postclamp (ops : MathOps) (c q : FP)
    (f : ResonantLowPassFilter)
    (h : (FP.feq c f.mLastCutoffHz && FP.feq q f.mLastResonanceDb) = false) :
    (setParams ops c q f).mLastCutoffHz = clampCutoff c ∧
    (setParams ops c q f).mLastResonanceDb = clampRes q := by
  simp [setParams, h, setParamsRecompute]

/-- Witness for `C2_memoizes_postclamp` at `setParams(5.0, 0.0)` on a freshly
initialized filter. -/
theorem C2_memoizes_postclamp_witness :
    (FP.feq (FP.fin 5) stInit.mLastCutoffHz
      && FP.feq (FP.fin 0) stInit.mLastResonanceDb) = false ∧
    ((setParams ops0 (FP.fin 5) (FP.fin 0) stInit).mLastCutoffHz
        = clampCutoff (FP.fin 5) ∧
     (setParams ops0 (FP.fin 5) (FP.fin 0) stInit).mLastResonanceDb
        = clampRes (FP.fin 0)) :=
  ⟨rfl, C2_memoizes_postclamp ops0 (FP.fin 5) (FP.fin 0) stInit rfl⟩

/-- C3 counterexample: right after `init`, calling `setParams(-1.0, -1.0)`
compares equal to the `-1.0` sentinel, takes the fast path and recomputes
nothing — the (uninitialized) coefficient `mA0 = 42` survives, although the
recompute branch would have set `mA0 = 0.5` for this math table. -/
theorem C3_cex_sentinel_args_take_fast_path :
    setParams ops0 (FP.fin (-1)) (FP.fin (-1)) stA42 = stA42 ∧
    stA42.mA0 = FP.fin 42 ∧
    (setParamsRecompute ops0 (FP.fin (-1)) (FP.fin (-1)) stA42).mA0 = FP.fin (1/2) ∧
    FP.fin (1/2) ≠ FP.fin 42 := by
  refine ⟨rfl, rfl, ?_, by norm_num⟩
  norm_num [setParamsRecompute, clampCutoff, clampRes, ops0, stA42, stZero, init,
    kMinCutoffHz, kMinResonance, kMaxResonance, M_PI,
    FP.mul_def, FP.add_def, FP.sub_def, FP.div_def, FP.neg_def,
    FP.fmul, FP.fadd, FP.fsub, FP.fdiv, FP.fneg, FP.flt]

/-- C3 amended: for every argument pair except `(-1.0, -1.0)` (more precisely,
unless both arguments compare `==` to `-1.0`), the first `setParams` after
`init` does not take the fast path: it runs the recompute branch. -/
theorem C3_first_setParams_recomputes (ops : MathOps) (c q s : FP)
    (f : ResonantLowPassFilter)
    (h : (FP.feq c (FP.fin (-1)) && FP.feq q (FP.fin (-1))) = false) :
    setParams ops c q (init s f) = setParamsRecompute ops c q (init s f) := by
  simp [setParams, init, h]

/-- Witness for `C3_first_setParams_recomputes` at `setParams(1000.0, 5.0)`. -/
theorem C3_first_setParams_recomputes_witness :
    (FP.feq (FP.fin 1000) (FP.fin (-1)) && FP.feq (FP.fin 5) (FP.fin (-1))) = false ∧
    setParams ops0 (FP.fin 1000) (FP.fin 5) (init (FP.fin 44100) stZero)
      = setParamsRecompute ops0 (FP.fin 1000) (FP.fin 5) (init (FP.fin 44100) stZero) :=
  ⟨rfl, C3_first_setParams_recomputes ops0 (FP.fin 1000) (FP.fin 5) (FP.fin 44100)
    stZero rfl⟩

/-- C5 counterexample: the code only guards against NaN (`isnan`), not all
non-finite values.  With `mA0 = 1` and input `+inf`, the computed recurrence
result is `+inf` (non-finite), and `process` returns `+inf` — not `0.0` — and
writes `+inf` into the `y1` tap. -/
theorem C5_cex_infinity_not_suppressed :
    (stA0One.mA0 * FP.pinf + stA0One.mA1 * stA0One.mX1 + stA0One.mA2 * stA0One.mX2
      - stA0One.mB1 * stA0One.mY1 - stA0One.mB2 * stA0One.mY2) = FP.pinf ∧
    (process FP.pinf stA0One).2 = FP.pinf ∧
    (process FP.pinf stA0One).1.mY1 = FP.pinf ∧
    FP.pinf ≠ FP.fin 0 :=
  ⟨rfl, rfl, rfl, by decide⟩

/-- C5 amended: if the computed recurrence result is NaN, `process` returns
exactly `0.0` and the `y1` tap written by that call is `0.0`, so a NaN cannot
persist in the recursive history. -/
theorem C5_nan_suppression (f : ResonantLowPassFilter) (input : FP)
    (h : (f.mA0 * input + f.mA1 * f.mX1 + f.mA2 * f.mX2
          - f.mB1 * f.mY1 - f.mB2 * f.mY2).isnan = true) :
    (process input f).2 = FP.fin 0 ∧ (process input f).1.mY1 = FP.fin 0 := by
  simp [process, h]

/-- Witness for `C5_nan_suppression`: a NaN input drives the recurrence to
NaN, and the output and written `y1` tap are both `0.0`. -/
theorem C5_nan_suppression_witness :
    (stZero.mA0 * FP.nan + stZero.mA1 * stZero.mX1 + stZero.mA2 * stZero.mX2
      - stZero.mB1 * stZero.mY1 - stZero.mB2 * stZero.mY2).isnan = true ∧
    (process FP.nan stZero).2 = FP.fin 0 ∧
    (process FP.nan stZero).1.mY1 = FP.fin 0 :=
  ⟨rfl, C5_nan_suppression stZero FP.nan rfl⟩

/-- C6: on every `setParams` call that does not take the fast path, the five
coefficients are derived exactly by the formula pipeline of the spec: with
`cutoff`, `r`, `k`, `c1`, `c2`, `c3` as in `specCutoff`/`specR`/`specK`/
`specC1`/`specC2`/`specC3`, the stored coefficients are `a0 = 2*c3`,
`a1 = 4*c3`, `a2 = 2*c3`, `b1 = -2*c2`, `b2 = 2*c1`. -/
theorem C6_coefficient_formulas (ops : MathOps) (c q : FP)
    (f : ResonantLowPassFilter)
    (h : (FP.feq c f.mLastCutoffHz && FP.feq q f.mLastResonanceDb) = false) :
    (setParams ops c q f).mA0 = FP.fin 2 * specC3 ops c q f.sampleRateHz ∧
    (setParams ops c q f).mA1 = FP.fin 4 * specC3 ops c q f.sampleRateHz ∧
    (setParams ops c q f).mA2 = FP.fin 2 * specC3 ops c q f.sampleRateHz ∧
    (setParams ops c q f).mB1 = FP.fin (-2) * specC2 ops c q f.sampleRateHz ∧
    (setParams ops c q f).mB2 = FP.fin 2 * specC1 ops c q f.sampleRateHz := by
  refine ⟨?_, ?_, ?_, ?_, ?_⟩ <;>
    simp [setParams, h, setParamsRecompute, specC3, specC2, specC1, specK, specR,
      specCutoff, fin_two_mul_fin_two_mul, fin_two_mul_neg]

/-- Witness for `C6_coefficient_formulas` at `setParams(1000.0, 0.0)` on a
freshly initialized filter. -/
theorem C6_coefficient_formulas_witness :
    (FP.feq (FP.fin 1000) stInit.mLastCutoffHz
      && FP.feq (FP.fin 0) stInit.mLastResonanceDb) = false ∧
    ((setParams ops0 (FP.fin 1000) (FP.fin 0) stInit).mA0
        = FP.fin 2 * specC3 ops0 (FP.fin 1000) (FP.fin 0) stInit.sampleRateHz ∧
     (setParams ops0 (FP.fin 1000) (FP.fin 0) stInit).mA1
        = FP.fin 4 * specC3 ops0 (FP.fin 1000) (FP.fin 0) stInit.sampleRateHz ∧
     (setParams ops0 (FP.fin 1000) (FP.fin 0) stInit).mA2
        = FP.fin 2 * specC3 ops0 (FP.fin 1000) (FP.fin 0) stInit.sampleRateHz ∧
     (setParams ops0 (FP.fin 1000) (FP.fin 0) stInit).mB1
        = FP.fin (-2) * specC2 ops0 (FP.fin 1000) (FP.fin 0) stInit.sampleRateHz ∧
     (setParams ops0 (FP.fin 1000) (FP.fin 0) stInit).mB2
        = FP.fin 2 * specC1 ops0 (FP.fin 1000) (FP.fin 0) stInit.sampleRateHz) :=
  ⟨rfl, C6_coefficient_formulas ops0 (FP.fin 1000) (FP.fin 0) stInit rfl⟩

/-- C8: calling `setParams` twice in a row with the same arguments leaves the
filter in exactly the state a single call produces: the second call is a
no-op (same coefficients, same memoized values, history taps untouched). -/
theorem C8_setParams_idempotent (ops : MathOps) (c q : FP)
    (f : ResonantLowPassFilter) :
    setParams ops c q (setParams ops c q f) = setParams ops c q f := by
  by_cases h1 : (FP.feq c f.mLastCutoffHz && FP.feq q f.mLastResonanceDb) = true
  · have e : setParams ops c q f = f := by simp [setParams, h1]
    rw [e, e]
  · have e : setParams ops c q f = setParamsRecompute ops c q f := by
      simp [setParams, h1]
    rw [e]
    by_cases h2 : (FP.feq c (setParamsRecompute ops c q f).mLastCutoffHz
        && FP.feq q (setParamsRecompute ops c q f).mLastResonanceDb) = true
    · simp [setParams, h2]
    · simp [setParams, h2, setParamsRecompute_idem]

/-- C9 counterexample: the claim quantifies over *every* filter state.  On a
state whose memoized parameters read `(12.0, 0.0)` but whose coefficient
`mA0 = 42` is inconsistent with them, `setParams(12.0, 0.0)` takes the fast
path and keeps `mA0 = 42`, while `setParams(5.0, 0.0)` recomputes and stores
`mA0 = 0.5` — the two calls do not behave identically there. -/
theorem C9_cex_inconsistent_state :
    (setParams ops0 (FP.fin 12) (FP.fin 0) stBad).mA0 = FP.fin 42 ∧
    (setParams ops0 (FP.fin 5) (FP.fin 0) stBad).mA0 = FP.fin (1/2) ∧
    FP.fin 42 ≠ FP.fin (1/2) := by
  refine ⟨rfl, ?_, by norm_num⟩
  norm_num [setParams, setParamsRecompute, clampCutoff, clampRes, ops0, stBad, stZero,
    kMinCutoffHz, kMinResonance, kMaxResonance, M_PI,
    FP.mul_def, FP.add_def, FP.sub_def, FP.div_def, FP.neg_def, FP.feq, FP.flt,
    FP.fmul, FP.fadd, FP.fsub, FP.fdiv, FP.fneg]

/-- C9 amended: for every filter state whose coefficients are consistent with
its memoized parameters (`paramsConsistent`, true of every state the
recompute branch produces), `setParams(5.0, 0.0)` yields the same state as
`setParams(12.0, 0.0)` (cutoff floor), `setParams(1000.0, 100.0)` the same as
`setParams(1000.0, 20.0)` (resonance ceiling), and `setParams(1000.0, -30.0)`
the same as `setParams(1000.0, -20.0)` (resonance floor). -/
theorem C9_clamping_equivalences (ops : MathOps) (f : ResonantLowPassFilter)
    (h : paramsConsistent ops f) :
    setParams ops (FP.fin 5) (FP.fin 0) f = setParams ops (FP.fin 12) (FP.fin 0) f ∧
    setParams ops (FP.fin 1000) (FP.fin 100) f
      = setParams ops (FP.fin 1000) (FP.fin 20) f ∧
    setParams ops (FP.fin 1000) (FP.fin (-30)) f
      = setParams ops (FP.fin 1000) (FP.fin (-20)) f := by
  refine ⟨setParams_congr_of_clamp ops f h ?_ ?_,
          setParams_congr_of_clamp ops f h ?_ ?_,
          setParams_congr_of_clamp ops f h ?_ ?_⟩ <;>
    norm_num [clampCutoff, clampRes, kMinCutoffHz, kMinResonance, kMaxResonance,
      FP.flt]

/-- Witness for `C9_clamping_equivalences` on the consistent state produced by
`setParams`-recomputation at `(1000.0, 0.0)` after `init`. -/
theorem C9_clamping_equivalences_witness :
    paramsConsistent ops0 (setParamsRecompute ops0 (FP.fin 1000) (FP.fin 0) stInit) ∧
    (setParams ops0 (FP.fin 5) (FP.fin 0)
        (setParamsRecompute ops0 (FP.fin 1000) (FP.fin 0) stInit)
      = setParams ops0 (FP.fin 12) (FP.fin 0)
        (setParamsRecompute ops0 (FP.fin 1000) (FP.fin 0) stInit) ∧
     setParams ops0 (FP.fin 1000) (FP.fin 100)
        (setParamsRecompute ops0 (FP.fin 1000) (FP.fin 0) stInit)
      = setParams ops0 (FP.fin 1000) (FP.fin 20)
        (setParamsRecompute ops0 (FP.fin 1000) (FP.fin 0) stInit) ∧
     setParams ops0 (FP.fin 1000) (FP.fin (-30))
        (setParamsRecompute ops0 (FP.fin 1000) (FP.fin 0) stInit)
      = setParams ops0 (FP.fin 1000) (FP.fin (-20))
        (setParamsRecompute ops0 (FP.fin 1000) (FP.fin 0) stInit)) :=
  ⟨setParamsRecompute_paramsConsistent ops0 (FP.fin 1000) (FP.fin 0) stInit,
   C9_clamping_equivalences ops0 _
     (setParamsRecompute_paramsConsistent ops0 (FP.fin 1000) (FP.fin 0) stInit)⟩

end AudioKitCore
